import Mathlib

/-!
Shallow embedding of the eksctl provider bootstrap pipeline
(`pkg/eks/api.go`): session construction with region back-fill,
credential-cache wiring in `New`, identity verification (`checkAuth`),
AMI resolver dispatch (`ResolveAMI`), and availability-zone selection
and validation (`SetAvailabilityZones`, `ValidateLocalZones`).

External collaborators (the AWS SDK session resolution, the STS and EC2
clients, the AMI resolvers, the credential cache helpers) are modelled
as oracle values passed in explicitly; pointer-typed SDK fields become
`Option`, Go error returns become `Except`/`Option` of an error type,
and mutation of caller-owned structs becomes explicit state passing.
-/

namespace Eksctl

/-- `api.ProviderConfig` (the fields used by this file): region may be
back-filled by `newSession`; the rest is read-only plumbing. -/
structure ProviderConfig where
  region : String
  profile : String
  waitTimeout : Nat
  cloudFormationRoleARN : String
  cloudFormationDisableRollback : Bool
deriving DecidableEq, Repr

/-- The slice of an `aws.Session` that `newSession` determines:
`region` models `s.Config.Region` (a `*string`, hence `Option`), and
`stsRegionalPinned` records whether the STS regional-endpoint mode was
pinned alongside an explicit region. -/
structure Session where
  region : Option String
  stsRegionalPinned : Bool
deriving DecidableEq, Repr

/-- Modelled from the spec: `api.DefaultRegion`, the hard-coded default
region used by the region back-fill (the `api` package is not under
`src/`; the spec calls it "a hard-coded default", guaranteed non-empty). -/
def DefaultRegion : String := "us-west-2"

/-- `api.IsSetAndNonEmptyString`: a `*string` that is non-nil and not empty. -/
def isSetAndNonEmptyString : Option String → Bool
  | none => false
  | some s => s ≠ ""

/-- `(*ClusterProvider).newSession`: builds a session pinned to
`spec.region` when that is non-empty; otherwise the session resolves a
region from the environment (`envRegion`, the oracle for what
`session.NewSessionWithOptions` puts into `s.Config.Region` when no
region is pinned). Region back-fill: with `spec.region` empty, a
set-and-non-empty session region is copied back into `spec.region`;
otherwise `spec.region` is set to `DefaultRegion` and the function
recurses once. Returns the final config, the session, and the number
of recursive re-entries taken. -/
def newSession (spec : ProviderConfig) (envRegion : Option String) :
    ProviderConfig × Session × Nat :=
  if _h : spec.region = "" then
    match envRegion with
    | some r =>
      if r = "" then
        let res := newSession { spec with region := DefaultRegion } envRegion
        (res.1, res.2.1, res.2.2 + 1)
      else
        ({ spec with region := r }, { region := some r, stsRegionalPinned := false }, 0)
    | none =>
      let res := newSession { spec with region := DefaultRegion } envRegion
      (res.1, res.2.1, res.2.2 + 1)
  else
    (spec, { region := some spec.region, stsRegionalPinned := true }, 0)
termination_by (if spec.region = "" then 1 else 0)
decreasing_by
  all_goals simp_all [DefaultRegion]

/-- With a non-empty region the session is pinned to it and no recursion
happens (lines 398-400 and the final return of `newSession`). -/
theorem newSession_nonempty_region (spec : ProviderConfig) (envRegion : Option String)
    (h : spec.region ≠ "") :
    newSession spec envRegion =
      (spec, { region := some spec.region, stsRegionalPinned := true }, 0) := by
  rw [newSession.eq_def]
  simp [h]

/-- After the back-fill sets the region to the default, the recursive
call is in the pinned case and performs no further recursion. -/
theorem newSession_after_backfill (spec : ProviderConfig) (envRegion : Option String) :
    newSession { spec with region := DefaultRegion } envRegion =
      ({ spec with region := DefaultRegion },
       { region := some DefaultRegion, stsRegionalPinned := true }, 0) := by
  apply newSession_nonempty_region
  show DefaultRegion ≠ ""
  decide

/-- Claim C1 counterexample: with an empty config region but an
environment that resolves the session region to "eu-north-1", the
session yielded by `newSession` has resolved region "eu-north-1", not
the hard-coded default. -/
theorem newSession_default_cex :
    (ProviderConfig.mk "" "prof" 0 "" false).region = "" ∧
    (newSession (ProviderConfig.mk "" "prof" 0 "" false) (some "eu-north-1")).2.1.region
      ≠ some DefaultRegion := by
  constructor
  · rfl
  · rw [newSession.eq_def]
    simp [DefaultRegion]

/-- Claim C1 (amended): for every `ProviderConfig` with empty region,
`newSession` terminates after at most one recursive re-entry; the
session it yields has resolved region equal to the hard-coded default
exactly when the underlying session resolution yields no usable region,
and equal to the resolved region otherwise; the config region is
back-filled to match. -/
theorem newSession_empty_region (spec : ProviderConfig) (envRegion : Option String)
    (h : spec.region = "") :
    (newSession spec envRegion).2.2 ≤ 1 ∧
    (isSetAndNonEmptyString envRegion = false →
      (newSession spec envRegion).2.1.region = some DefaultRegion ∧
      (newSession spec envRegion).1.region = DefaultRegion) ∧
    (∀ r, envRegion = some r → r ≠ "" →
      (newSession spec envRegion).2.1.region = some r ∧
      (newSession spec envRegion).1.region = r) := by
  match envRegion with
  | none =>
    rw [newSession.eq_def]
    simp [h, isSetAndNonEmptyString, newSession_after_backfill]
  | some r =>
    by_cases hr : r = ""
    · subst hr
      rw [newSession.eq_def]
      simp [h, isSetAndNonEmptyString, newSession_after_backfill]
    · rw [newSession.eq_def]
      simp [h, hr, isSetAndNonEmptyString]

/-- Closed instance of `newSession_empty_region` at a concrete config
with empty region and an environment resolving no region. -/
theorem newSession_empty_region_witness :
    (ProviderConfig.mk "" "prof" 0 "" false).region = "" ∧
    (newSession (ProviderConfig.mk "" "prof" 0 "" false) none).2.2 ≤ 1 ∧
    (newSession (ProviderConfig.mk "" "prof" 0 "" false) none).2.1.region
      = some DefaultRegion := by
  have h := newSession_empty_region (ProviderConfig.mk "" "prof" 0 "" false) none rfl
  exact ⟨rfl, h.1, (h.2.1 rfl).1⟩

/-- `api.ClusterMeta` (the fields relevant here). -/
structure ClusterMeta where
  name : String
  region : String
  version : String
deriving DecidableEq, Repr

/-- `api.ClusterConfig` (the fields touched by this file). -/
structure ClusterConfig where
  metadata : ClusterMeta
  availabilityZones : List String
  localZones : List String
deriving DecidableEq, Repr

/-- Modelled from the spec: `api.MinRequiredAvailabilityZones` (the `api`
package is not under `src/`; the spec only requires a minimum cardinality
constant). -/
def MinRequiredAvailabilityZones : Nat := 2

/-- Errors returned by `SetAvailabilityZones`:
`tooFewZones` models `api.ErrTooFewAvailabilityZones(zones)` and
`discoveryError` the wrapped error from `az.GetAvailabilityZones`. -/
inductive ZoneError where
  | tooFewZones (zones : List String)
  | discoveryError (e : String)
deriving DecidableEq, Repr

/-- `SetAvailabilityZones`: adopts the explicitly `given` zones after a
minimum-cardinality check; otherwise keeps a non-empty existing
`spec.availabilityZones` after the same check; otherwise invokes live
discovery (`discovery` is the oracle for `az.GetAvailabilityZones`) and
adopts its result. Returns the error (if any), the final cluster spec,
and the number of discovery invocations made. -/
def SetAvailabilityZones (spec : ClusterConfig) (given : List String)
    (discovery : Except String (List String)) :
    Option ZoneError × ClusterConfig × Nat :=
  if given.length ≠ 0 then
    if given.length < MinRequiredAvailabilityZones then
      (some (.tooFewZones given), spec, 0)
    else
      (none, { spec with availabilityZones := given }, 0)
  else if spec.availabilityZones.length ≠ 0 then
    if spec.availabilityZones.length < MinRequiredAvailabilityZones then
      (some (.tooFewZones spec.availabilityZones), spec, 0)
    else
      (none, spec, 0)
  else
    match discovery with
    | .error e => (some (.discoveryError e), spec, 1)
    | .ok zones => (none, { spec with availabilityZones := zones }, 1)

/-- One returned record of a `DescribeAvailabilityZones` response; the
SDK fields are pointers, hence `Option`. -/
structure AZRecord where
  zoneName : Option String
  zoneType : Option String
deriving DecidableEq, Repr

/-- Outcome of `ValidateLocalZones`. `panicked` marks a nil-pointer
dereference of `z.ZoneType` or `z.ZoneName` (a Go runtime panic, not a
returned error). -/
inductive LocalZonesResult where
  | ok
  | describeError (e : String)
  | countMismatch (expected found : Nat)
  | nonLocalZone (name : String)
  | panicked
deriving DecidableEq, Repr

/-- The per-zone loop of `ValidateLocalZones`: for each returned record,
dereference `ZoneType` and reject the whole call naming the zone (via a
dereference of `ZoneName`) when the type is not "local-zone". -/
def checkZoneTypes : List AZRecord → LocalZonesResult
  | [] => .ok
  | z :: rest =>
    match z.zoneType with
    | none => .panicked
    | some t =>
      if t ≠ "local-zone" then
        match z.zoneName with
        | none => .panicked
        | some n => .nonLocalZone n
      else checkZoneTypes rest

/-- `ValidateLocalZones`: queries the provider for the named zones
(`response` is the oracle for the `DescribeAvailabilityZones` call,
already filtered server-side by region and state), fails when the
returned count differs from the requested count, then checks every
returned zone's type. The second component is the final state of the
caller's zone list, which the function never writes. -/
def ValidateLocalZones (localZones : List String)
    (response : Except String (List AZRecord)) : LocalZonesResult × List String :=
  match response with
  | .error e => (.describeError e, localZones)
  | .ok zones =>
    if zones.length ≠ localZones.length then
      (.countMismatch localZones.length zones.length, localZones)
    else
      (checkZoneTypes zones, localZones)

/-- Claim C2: a non-empty explicit zone list is adopted verbatim when it
meets the minimum cardinality and rejected with the too-few-zones error
otherwise; failing that, a non-empty existing spec value undergoes the
same check and is kept verbatim on success. In all four cases the
discovery invocation count is 0: live discovery is never invoked. -/
theorem SetAvailabilityZones_no_discovery (spec : ClusterConfig) (given : List String)
    (discovery : Except String (List String)) :
    (given ≠ [] →
      (given.length < MinRequiredAvailabilityZones →
        SetAvailabilityZones spec given discovery = (some (.tooFewZones given), spec, 0)) ∧
      (MinRequiredAvailabilityZones ≤ given.length →
        SetAvailabilityZones spec given discovery =
          (none, { spec with availabilityZones := given }, 0))) ∧
    (given = [] → spec.availabilityZones ≠ [] →
      (spec.availabilityZones.length < MinRequiredAvailabilityZones →
        SetAvailabilityZones spec given discovery =
          (some (.tooFewZones spec.availabilityZones), spec, 0)) ∧
      (MinRequiredAvailabilityZones ≤ spec.availabilityZones.length →
        SetAvailabilityZones spec given discovery = (none, spec, 0))) := by
  constructor
  · intro hg
    have hg' : given.length ≠ 0 := by
      simpa [List.length_eq_zero] using hg
    constructor
    · intro hlt
      simp [SetAvailabilityZones, hg', hlt]
    · intro hge
      simp [SetAvailabilityZones, hg', Nat.not_lt.mpr hge]
  · intro hg hs
    have hs' : spec.availabilityZones.length ≠ 0 := by
      simpa [List.length_eq_zero] using hs
    subst hg
    constructor
    · intro hlt
      simp [SetAvailabilityZones, hs', hlt]
    · intro hge
      simp [SetAvailabilityZones, hs', Nat.not_lt.mpr hge]

/-- Closed instance of `SetAvailabilityZones_no_discovery`: a one-element
explicit list is rejected with the too-few-zones error without touching
the spec, discovery count 0. -/
theorem SetAvailabilityZones_no_discovery_witness :
    (["us-west-2a"] : List String) ≠ [] ∧
    (["us-west-2a"] : List String).length < MinRequiredAvailabilityZones ∧
    SetAvailabilityZones (ClusterConfig.mk (ClusterMeta.mk "c" "" "1.24") [] [])
        ["us-west-2a"] (.ok ["x", "y"]) =
      (some (.tooFewZones ["us-west-2a"]),
       ClusterConfig.mk (ClusterMeta.mk "c" "" "1.24") [] [], 0) :=
  ⟨by decide, by decide,
    ((SetAvailabilityZones_no_discovery
        (ClusterConfig.mk (ClusterMeta.mk "c" "" "1.24") [] [])
        ["us-west-2a"] (.ok ["x", "y"])).1 (by decide)).1 (by decide)⟩

/-- Claim C3: with both the explicit list and the existing spec value
empty, live discovery is invoked exactly once; on success its result is
adopted verbatim into the spec, with no minimum-cardinality
re-validation (the conclusion holds for any discovered list). -/
theorem SetAvailabilityZones_discovery (spec : ClusterConfig) (given : List String)
    (discovery : Except String (List String))
    (hg : given = []) (hs : spec.availabilityZones = []) :
    (SetAvailabilityZones spec given discovery).2.2 = 1 ∧
    (∀ zones, discovery = .ok zones →
      SetAvailabilityZones spec given discovery =
        (none, { spec with availabilityZones := zones }, 1)) := by
  subst hg
  cases discovery with
  | error e => simp [SetAvailabilityZones, hs]
  | ok zones => simp [SetAvailabilityZones, hs]

/-- Closed instance of `SetAvailabilityZones_discovery` at the spec's
example: discovery returning the three us-west-2 zones is adopted
verbatim, with exactly one discovery invocation. -/
theorem SetAvailabilityZones_discovery_witness :
    ([] : List String) = [] ∧
    (ClusterConfig.mk (ClusterMeta.mk "c" "" "1.24") [] []).availabilityZones = [] ∧
    SetAvailabilityZones (ClusterConfig.mk (ClusterMeta.mk "c" "" "1.24") [] []) []
        (.ok ["us-west-2a", "us-west-2b", "us-west-2c"]) =
      (none,
       ClusterConfig.mk (ClusterMeta.mk "c" "" "1.24")
         ["us-west-2a", "us-west-2b", "us-west-2c"] [], 1) :=
  ⟨rfl, rfl,
    (SetAvailabilityZones_discovery
        (ClusterConfig.mk (ClusterMeta.mk "c" "" "1.24") [] []) []
        (.ok ["us-west-2a", "us-west-2b", "us-west-2c"]) rfl rfl).2
      ["us-west-2a", "us-west-2b", "us-west-2c"] rfl⟩

/-- If every returned zone has type "local-zone", the type-check loop
accepts. -/
theorem checkZoneTypes_all_local (zones : List AZRecord)
    (h : ∀ z ∈ zones, z.zoneType = some "local-zone") :
    checkZoneTypes zones = .ok := by
  induction zones with
  | nil => rfl
  | cons z rest ih =>
    have hz := h z (by simp)
    rw [checkZoneTypes, hz]
    simp only [if_neg (by simp : ¬("local-zone" ≠ "local-zone"))]
    exact ih fun w hw => h w (by simp [hw])

/-- If some returned zone's type differs from "local-zone" and all
records are well-formed (non-nil name and type pointers), the loop
rejects, naming an offending zone. -/
theorem checkZoneTypes_offender (zones : List AZRecord)
    (hwf : ∀ z ∈ zones, z.zoneType ≠ none ∧ z.zoneName ≠ none)
    (hex : ∃ z ∈ zones, z.zoneType ≠ some "local-zone") :
    ∃ z ∈ zones, z.zoneType ≠ some "local-zone" ∧
      ∃ n, z.zoneName = some n ∧ checkZoneTypes zones = .nonLocalZone n := by
  induction zones with
  | nil => simp at hex
  | cons z rest ih =>
    match hzt : z.zoneType with
    | none => exact absurd hzt (hwf z (by simp)).1
    | some t =>
      by_cases ht : t = "local-zone"
      · subst ht
        have hex' : ∃ w ∈ rest, w.zoneType ≠ some "local-zone" := by
          obtain ⟨w, hw, hwt⟩ := hex
          rcases List.mem_cons.mp hw with h1 | h2
          · subst h1
            exact absurd hzt hwt
          · exact ⟨w, h2, hwt⟩
        obtain ⟨w, hw, hwt, n, hn, hres⟩ :=
          ih (fun u hu => hwf u (by simp [hu])) hex'
        refine ⟨w, by simp [hw], hwt, n, hn, ?_⟩
        rw [checkZoneTypes, hzt]
        simpa using hres
      · match hzn : z.zoneName with
        | none => exact absurd hzn (hwf z (by simp)).2
        | some n =>
          refine ⟨z, by simp, by simp [hzt, ht], n, hzn, ?_⟩
          rw [checkZoneTypes, hzt]
          simp [ht, hzn]

/-- Claim C4: on a successful provider query, `ValidateLocalZones`
fails with the count-mismatch error whenever the returned count differs
from the requested count; with matching counts it succeeds when every
returned zone has type "local-zone" and otherwise fails naming an
offending zone; in every case the caller's zone list is unchanged
(hypothesis: the returned records have non-nil name and type pointers). -/
theorem ValidateLocalZones_spec (localZones : List String) (zones : List AZRecord)
    (hwf : ∀ z ∈ zones, z.zoneType ≠ none ∧ z.zoneName ≠ none) :
    (ValidateLocalZones localZones (.ok zones)).2 = localZones ∧
    (zones.length ≠ localZones.length →
      ValidateLocalZones localZones (.ok zones) =
        (.countMismatch localZones.length zones.length, localZones)) ∧
    (zones.length = localZones.length →
      ((∀ z ∈ zones, z.zoneType = some "local-zone") →
        ValidateLocalZones localZones (.ok zones) = (.ok, localZones)) ∧
      ((∃ z ∈ zones, z.zoneType ≠ some "local-zone") →
        ∃ z ∈ zones, z.zoneType ≠ some "local-zone" ∧
          ∃ n, z.zoneName = some n ∧
            ValidateLocalZones localZones (.ok zones) = (.nonLocalZone n, localZones))) := by
  refine ⟨?_, ?_, ?_⟩
  · by_cases hlen : zones.length = localZones.length <;>
      simp [ValidateLocalZones, hlen]
  · intro hlen
    simp [ValidateLocalZones, hlen]
  · intro hlen
    constructor
    · intro hall
      simp [ValidateLocalZones, hlen, checkZoneTypes_all_local zones hall]
    · intro hex
      obtain ⟨z, hz, hzt, n, hn, hres⟩ := checkZoneTypes_offender zones hwf hex
      exact ⟨z, hz, hzt, n, hn, by simp [ValidateLocalZones, hlen, hres]⟩

/-- Closed instance of `ValidateLocalZones_spec` at the spec's example:
one requested local zone, returned with type "local-zone", succeeds. -/
theorem ValidateLocalZones_spec_witness :
    (∀ z ∈ [AZRecord.mk (some "us-west-2-lax-1a") (some "local-zone")],
        z.zoneType ≠ none ∧ z.zoneName ≠ none) ∧
    ValidateLocalZones ["us-west-2-lax-1a"]
        (.ok [AZRecord.mk (some "us-west-2-lax-1a") (some "local-zone")]) =
      (.ok, ["us-west-2-lax-1a"]) := by
  refine ⟨by decide, ?_⟩
  exact ((ValidateLocalZones_spec ["us-west-2-lax-1a"]
      [AZRecord.mk (some "us-west-2-lax-1a") (some "local-zone")]
      (by decide)).2.2 rfl).1 (by decide)

/-- Claim C9: a successful response with matching count but a nil
`ZoneType` pointer makes `ValidateLocalZones` dereference nil — a Go
runtime panic, not a typed error. -/
theorem ValidateLocalZones_nil_zoneType_panics :
    ([AZRecord.mk (some "us-west-2-lax-1a") none].length
        = (["us-west-2-lax-1a"] : List String).length) ∧
    (ValidateLocalZones ["us-west-2-lax-1a"]
        (.ok [AZRecord.mk (some "us-west-2-lax-1a") none])).1 = .panicked := by
  constructor <;> rfl

/-- The slice of a node group that `ResolveAMI` reads and writes:
`ami` is the requested mode before resolution ("auto", "auto-ssm", "",
or an explicit value) and holds the resolved image id afterwards. -/
structure NodeGroup where
  ami : String
  amiFamily : String
deriving DecidableEq, Repr

/-- Modelled from the spec: `api.NodeImageResolverAuto` (constant of the
`api` package, not under `src/`). -/
def NodeImageResolverAuto : String := "auto"

/-- Modelled from the spec: `api.NodeImageResolverAutoSSM` (constant of
the `api` package, not under `src/`). -/
def NodeImageResolverAutoSSM : String := "auto-ssm"

/-- Errors returned by `ResolveAMI`: the invalid-mode rejection, a
wrapped resolver error, and `ami.NewErrFailedResolution` with its four
context fields. -/
inductive AMIError where
  | invalidAMIValue (mode : String)
  | resolveFailed (e : String)
  | resolutionFailure (region k8sVersion instanceType amiFamily : String)
deriving DecidableEq, Repr

/-- Oracles for the two concrete resolvers' `Resolve` outcomes on the
tuple at hand: the EC2-based auto resolver and the SSM parameter-store
resolver. -/
structure ResolverEnv where
  autoResult : Except String String
  ssmResult : Except String String
deriving Repr

/-- Modelled from the spec: `ami.MultiResolver` (package `ami`, not
under `src/`) tries its delegates in order; the first resolver that
yields a non-empty id wins, and on an empty id or an error the next
delegate is consulted. -/
def multiResolve (first second : Except String String) : Except String String :=
  match first with
  | .ok id => if id = "" then second else .ok id
  | .error _ => second

/-- The `switch ng.AMI` of `ResolveAMI`: selects the resolver for the
requested mode, or none for an invalid mode. -/
def dispatchResolver (mode : String) (env : ResolverEnv) : Option (Except String String) :=
  if mode = NodeImageResolverAuto then some env.autoResult
  else if mode = NodeImageResolverAutoSSM then some env.ssmResult
  else if mode = "" then some (multiResolve env.ssmResult env.autoResult)
  else none

/-- The tail of `ResolveAMI` after resolver selection: a resolver error
is wrapped and returned, an empty id becomes the structured resolution
failure, and only a non-empty id is written into `ng.ami`. -/
def applyResolution (region k8sVersion instanceType : String) (ng : NodeGroup)
    (r : Except String String) : Option AMIError × NodeGroup :=
  match r with
  | .error e => (some (.resolveFailed e), ng)
  | .ok id =>
    if id = "" then
      (some (.resolutionFailure region k8sVersion instanceType ng.amiFamily), ng)
    else
      (none, { ng with ami := id })

/-- `ResolveAMI`: dispatches on the node group's AMI mode and runs the
selected resolver (line numbers 305-332 of `pkg/eks/api.go`). Returns
the error (if any) and the final node group state. -/
def ResolveAMI (region k8sVersion instanceType : String) (ng : NodeGroup)
    (env : ResolverEnv) : Option AMIError × NodeGroup :=
  match dispatchResolver ng.ami env with
  | none => (some (.invalidAMIValue ng.ami), ng)
  | some r => applyResolution region k8sVersion instanceType ng r

/-- Claim C5: whenever a resolver is selected, a resolver error or an
empty resolved id fails the call and leaves the node group's AMI field
unchanged — an empty id yields the structured resolution failure
carrying region, k8sVersion, instanceType and amiFamily — and the AMI
field is overwritten exactly on a non-empty resolved id. -/
theorem ResolveAMI_failure_frame (region k8sVersion instanceType : String)
    (ng : NodeGroup) (env : ResolverEnv) (r : Except String String)
    (hr : dispatchResolver ng.ami env = some r) :
    (∀ e, r = .error e →
      ResolveAMI region k8sVersion instanceType ng env = (some (.resolveFailed e), ng)) ∧
    (r = .ok "" →
      ResolveAMI region k8sVersion instanceType ng env =
        (some (.resolutionFailure region k8sVersion instanceType ng.amiFamily), ng)) ∧
    (∀ id, r = .ok id → id ≠ "" →
      ResolveAMI region k8sVersion instanceType ng env = (none, { ng with ami := id })) := by
  refine ⟨?_, ?_, ?_⟩
  · intro e he
    subst he
    simp [ResolveAMI, hr, applyResolution]
  · intro he
    subst he
    simp [ResolveAMI, hr, applyResolution]
  · intro id hid hne
    subst hid
    simp [ResolveAMI, hr, applyResolution, hne]

/-- Closed instance of `ResolveAMI_failure_frame`: the auto resolver
returning an empty id yields the structured resolution failure and
leaves the node group unchanged. -/
theorem ResolveAMI_failure_frame_witness :
    dispatchResolver (NodeGroup.mk "auto" "AmazonLinux2").ami
        (ResolverEnv.mk (.ok "") (.ok "")) = some (.ok "") ∧
    ResolveAMI "us-west-2" "1.24" "m5.large" (NodeGroup.mk "auto" "AmazonLinux2")
        (ResolverEnv.mk (.ok "") (.ok "")) =
      (some (.resolutionFailure "us-west-2" "1.24" "m5.large" "AmazonLinux2"),
       NodeGroup.mk "auto" "AmazonLinux2") :=
  ⟨rfl,
    (ResolveAMI_failure_frame "us-west-2" "1.24" "m5.large"
        (NodeGroup.mk "auto" "AmazonLinux2") (ResolverEnv.mk (.ok "") (.ok ""))
        (.ok "") rfl).2.1 rfl⟩

/-- Claim C6: mode "auto" selects the EC2-based auto resolver,
"auto-ssm" the SSM parameter-store resolver, and the empty mode the
multi resolver composed of the SSM resolver first and the auto resolver
second; any other mode fails with the invalid-input error without
consulting any resolver (the outcome is independent of the resolver
oracles). -/
theorem ResolveAMI_dispatch (region k8sVersion instanceType : String)
    (ng : NodeGroup) (env : ResolverEnv) :
    (ng.ami = "auto" →
      ResolveAMI region k8sVersion instanceType ng env =
        applyResolution region k8sVersion instanceType ng env.autoResult) ∧
    (ng.ami = "auto-ssm" →
      ResolveAMI region k8sVersion instanceType ng env =
        applyResolution region k8sVersion instanceType ng env.ssmResult) ∧
    (ng.ami = "" →
      ResolveAMI region k8sVersion instanceType ng env =
        applyResolution region k8sVersion instanceType ng
          (multiResolve env.ssmResult env.autoResult)) ∧
    (ng.ami ≠ "auto" → ng.ami ≠ "auto-ssm" → ng.ami ≠ "" →
      ∀ env2 : ResolverEnv,
        ResolveAMI region k8sVersion instanceType ng env2 =
          (some (.invalidAMIValue ng.ami), ng)) := by
  refine ⟨?_, ?_, ?_, ?_⟩
  · intro h
    simp [ResolveAMI, dispatchResolver, h, NodeImageResolverAuto]
  · intro h
    simp [ResolveAMI, dispatchResolver, h, NodeImageResolverAuto, NodeImageResolverAutoSSM]
  · intro h
    simp [ResolveAMI, dispatchResolver, h, NodeImageResolverAuto, NodeImageResolverAutoSSM]
  · intro h1 h2 h3 env2
    simp [ResolveAMI, dispatchResolver, NodeImageResolverAuto, NodeImageResolverAutoSSM,
      h1, h2, h3]

/-- Closed instance of `ResolveAMI_dispatch`: an unrecognized mode is
rejected as invalid input regardless of the resolver oracles. -/
theorem ResolveAMI_dispatch_witness :
    (NodeGroup.mk "ami-012345" "AmazonLinux2").ami ≠ "auto" ∧
    ResolveAMI "us-west-2" "1.24" "m5.large" (NodeGroup.mk "ami-012345" "AmazonLinux2")
        (ResolverEnv.mk (.ok "ami-aaa") (.error "boom")) =
      (some (.invalidAMIValue "ami-012345"), NodeGroup.mk "ami-012345" "AmazonLinux2") :=
  ⟨by decide,
    (ResolveAMI_dispatch "us-west-2" "1.24" "m5.large"
        (NodeGroup.mk "ami-012345" "AmazonLinux2")
        (ResolverEnv.mk (.ok "ami-aaa") (.error "boom"))).2.2.2
      (by decide) (by decide) (by decide) (ResolverEnv.mk (.ok "ami-aaa") (.error "boom"))⟩

/-- The `sts.GetCallerIdentityOutput` slice read by `checkAuth`: the
`Arn` field is a `*string`, hence `Option`. -/
structure GetCallerIdentityOutput where
  arn : Option String
deriving DecidableEq, Repr

/-- Errors returned by `checkAuth`: the wrapped STS call error and the
"unexpected response from AWS STS" error for a nil output or nil ARN. -/
inductive AuthError where
  | stsError (e : String)
  | unexpectedResponse
deriving DecidableEq, Repr

/-- Which credential source the provider ended up with: the live
credential chain or the file-cache wrapper installed by `New`. -/
inductive CredSource where
  | live
  | cached
deriving DecidableEq, Repr

/-- `ProviderStatus` (the fields touched here): the IAM role ARN set by
`checkAuth` and the session credential source set by `New`. -/
structure ProviderStatus where
  iamRoleARN : String
  sessionCreds : CredSource
deriving DecidableEq, Repr

/-- `(*ClusterProvider).checkAuth`: issues the one `GetCallerIdentity`
call (`stsResponse` is its oracle; the outer `Option` models a nil
output pointer), fails on a call error or a missing ARN, and on success
stores the ARN into the status. Returns the error (if any), the final
status, and the number of STS calls issued. -/
def checkAuth (status : ProviderStatus)
    (stsResponse : Except String (Option GetCallerIdentityOutput)) :
    Option AuthError × ProviderStatus × Nat :=
  match stsResponse with
  | .error e => (some (.stsError e), status, 1)
  | .ok none => (some .unexpectedResponse, status, 1)
  | .ok (some out) =>
    match out.arn with
    | none => (some .unexpectedResponse, status, 1)
    | some arn => (none, { status with iamRoleARN := arn }, 1)

/-- Claim C7: `checkAuth` issues exactly one STS call; it fails both
when the call errors and when the response is present but lacks the ARN
(the same non-success outcome shape in either case), leaving the status
unchanged; on success the status's IAMRoleARN is set to the returned
ARN. -/
theorem checkAuth_spec (status : ProviderStatus)
    (stsResponse : Except String (Option GetCallerIdentityOutput)) :
    (checkAuth status stsResponse).2.2 = 1 ∧
    (∀ e, stsResponse = .error e →
      checkAuth status stsResponse = (some (.stsError e), status, 1)) ∧
    (stsResponse = .ok none →
      checkAuth status stsResponse = (some .unexpectedResponse, status, 1)) ∧
    (∀ out, stsResponse = .ok (some out) → out.arn = none →
      checkAuth status stsResponse = (some .unexpectedResponse, status, 1)) ∧
    (∀ out arn, stsResponse = .ok (some out) → out.arn = some arn →
      checkAuth status stsResponse = (none, { status with iamRoleARN := arn }, 1)) := by
  refine ⟨?_, ?_, ?_, ?_, ?_⟩
  · match stsResponse with
    | .error e => rfl
    | .ok none => rfl
    | .ok (some out) =>
      match h : out.arn with
      | none => simp [checkAuth, h]
      | some arn => simp [checkAuth, h]
  · intro e he
    subst he
    rfl
  · intro he
    subst he
    rfl
  · intro out hout harn
    subst hout
    simp [checkAuth, harn]
  · intro out arn hout harn
    subst hout
    simp [checkAuth, harn]

/-- Closed instance of `checkAuth_spec`: a response present but with a
nil ARN fails with the unexpected-response error and leaves the status
unchanged, after exactly one STS call. -/
theorem checkAuth_spec_witness :
    (Except.ok (some (GetCallerIdentityOutput.mk none)) :
        Except String (Option GetCallerIdentityOutput)) = .ok (some ⟨none⟩) ∧
    checkAuth (ProviderStatus.mk "" .live) (.ok (some ⟨none⟩)) =
      (some .unexpectedResponse, ProviderStatus.mk "" .live, 1) :=
  ⟨rfl,
    (checkAuth_spec (ProviderStatus.mk "" .live) (.ok (some ⟨none⟩))).2.2.2.1
      (GetCallerIdentityOutput.mk none) rfl rfl⟩

/-- Errors with which `New` can return before giving a provider. -/
inductive NewError where
  | nilSessionConfig
  | cachePathError (e : String)
  | v2ConfigError (e : String)
  | authError (e : AuthError)
deriving DecidableEq, Repr

/-- The oracles consumed by one run of `New`: the session resolution's
region, the credential-caching opt-in environment switch, whether
`s.Config` is nil, the outcomes of `GetCacheFilePath`,
`NewFileCacheProvider` and `newV2Config`, and the STS response. -/
structure NewEnv where
  envRegion : Option String
  cacheOptIn : Bool
  sessionConfigNil : Bool
  cacheFilePath : Except String String
  fileCacheProvider : Except String Unit
  v2Config : Except String Unit
  stsResponse : Except String (Option GetCallerIdentityOutput)

/-- The observable outcome of `New`: the returned status or error, the
final states of the caller-owned `spec` and `clusterSpec`, the
credential source in use, and whether a cache warning was logged. -/
structure NewOutcome where
  result : Except NewError ProviderStatus
  specFinal : ProviderConfig
  clusterSpecFinal : Option ClusterConfig
  credSource : CredSource
  warnedCache : Bool

/-- The tail of `New` after the credential-cache segment: `newV2Config`
may fail; then `clusterSpec.Metadata.Region` is overwritten with the
provider's region (when `clusterSpec` is non-nil) and `checkAuth` runs.
Note the cluster-spec write precedes `checkAuth`, so it persists even
when authentication fails. -/
def newAfterCredentials (spec1 : ProviderConfig) (clusterSpec : Option ClusterConfig)
    (env : NewEnv) (src : CredSource) (warned : Bool) : NewOutcome :=
  match env.v2Config with
  | .error e => ⟨.error (.v2ConfigError e), spec1, clusterSpec, src, warned⟩
  | .ok _ =>
    let clusterSpec1 := clusterSpec.map fun cs =>
      { cs with metadata := { cs.metadata with region := spec1.region } }
    let auth := checkAuth { iamRoleARN := "", sessionCreds := src } env.stsResponse
    match auth.1 with
    | some e => ⟨.error (.authError e), spec1, clusterSpec1, src, warned⟩
    | none => ⟨.ok auth.2.1, spec1, clusterSpec1, src, warned⟩

/-- `New` (lines 139-221 of `pkg/eks/api.go`): builds the session, then
— only under the caching opt-in — requires a non-nil session config,
requires the cache file path, and installs the file cache provider,
downgrading only the provider-construction failure to a warning; then
proceeds with V2 config, the cluster-spec region write, and
`checkAuth`. -/
def New (spec : ProviderConfig) (clusterSpec : Option ClusterConfig) (env : NewEnv) :
    NewOutcome :=
  let s := newSession spec env.envRegion
  let spec1 := s.1
  if env.cacheOptIn then
    if env.sessionConfigNil then
      ⟨.error .nilSessionConfig, spec1, clusterSpec, .live, false⟩
    else
      match env.cacheFilePath with
      | .error e => ⟨.error (.cachePathError e), spec1, clusterSpec, .live, false⟩
      | .ok _ =>
        match env.fileCacheProvider with
        | .ok _ => newAfterCredentials spec1 clusterSpec env .cached false
        | .error _ => newAfterCredentials spec1 clusterSpec env .live true
  else
    newAfterCredentials spec1 clusterSpec env .live false

/-- Field-level description of `newAfterCredentials`: the spec, the
credential source and the warning flag pass through unchanged, and with
a successful V2 config the cluster spec's metadata region is overwritten
with the provider's region. -/
theorem newAfterCredentials_fields (spec1 : ProviderConfig)
    (clusterSpec : Option ClusterConfig) (env : NewEnv) (src : CredSource) (warned : Bool) :
    (newAfterCredentials spec1 clusterSpec env src warned).specFinal = spec1 ∧
    (newAfterCredentials spec1 clusterSpec env src warned).credSource = src ∧
    (newAfterCredentials spec1 clusterSpec env src warned).warnedCache = warned ∧
    (env.v2Config = .ok () →
      (newAfterCredentials spec1 clusterSpec env src warned).clusterSpecFinal =
        clusterSpec.map fun cs =>
          { cs with metadata := { cs.metadata with region := spec1.region } }) := by
  cases hv : env.v2Config with
  | error e => simp [newAfterCredentials, hv]
  | ok u =>
    cases ha : (checkAuth { iamRoleARN := "", sessionCreds := src } env.stsResponse).1 with
    | none => simp [newAfterCredentials, hv, ha]
    | some e => simp [newAfterCredentials, hv, ha]

/-- When the credential-cache segment does not return early (opt-in
absent, or opt-in present with a non-nil session config, a cache file
path, and any file-cache-provider outcome), `New` proceeds to the tail
with some credential source and warning flag. -/
theorem New_reduces (spec : ProviderConfig) (clusterSpec : Option ClusterConfig)
    (env : NewEnv)
    (hcache : env.cacheOptIn = true →
      env.sessionConfigNil = false ∧ ∃ p, env.cacheFilePath = .ok p) :
    ∃ src warned, New spec clusterSpec env =
      newAfterCredentials (newSession spec env.envRegion).1 clusterSpec env src warned := by
  cases hopt : env.cacheOptIn with
  | false => exact ⟨.live, false, by simp [New, hopt]⟩
  | true =>
    obtain ⟨hnil, p, hp⟩ := hcache hopt
    cases hf : env.fileCacheProvider with
    | ok u => exact ⟨.cached, false, by simp [New, hopt, hnil, hp, hf]⟩
    | error e => exact ⟨.live, true, by simp [New, hopt, hnil, hp, hf]⟩

/-- Claim C8 counterexample: with the caching opt-in present, a failure
of `GetCacheFilePath` — a failure to set up the credential cache — makes
`New` return an error rather than warn and continue. -/
theorem New_cache_path_fatal_cex :
    (NewEnv.mk none true false (.error "cannot determine cache path") (.ok ())
        (.ok ()) (.ok (some ⟨some "arn:aws:iam::123:role/dev"⟩))).cacheOptIn = true ∧
    (New (ProviderConfig.mk "us-west-2" "prof" 0 "" false) none
        (NewEnv.mk none true false (.error "cannot determine cache path") (.ok ())
          (.ok ()) (.ok (some ⟨some "arn:aws:iam::123:role/dev"⟩)))).result =
      .error (.cachePathError "cannot determine cache path") := by
  constructor <;> rfl

/-- Claim C8 (amended): when the caching opt-in is absent, `New`
bypasses the cache entirely (live credentials, no warning, outcome
independent of every cache input); when it is present, a failure to
construct the file cache provider is non-fatal — `New` warns and
continues with live credentials — but a failure to determine the cache
file path, or a nil session config, is fatal and `New` returns an
error. -/
theorem New_cache_behavior (spec : ProviderConfig) (clusterSpec : Option ClusterConfig)
    (env : NewEnv) :
    (env.cacheOptIn = false →
      (New spec clusterSpec env).credSource = .live ∧
      (New spec clusterSpec env).warnedCache = false ∧
      (∀ b p f, New spec clusterSpec
          { env with sessionConfigNil := b, cacheFilePath := p, fileCacheProvider := f } =
        New spec clusterSpec env)) ∧
    (env.cacheOptIn = true → env.sessionConfigNil = false →
      (∀ path, env.cacheFilePath = .ok path →
        (env.fileCacheProvider = .ok () →
          New spec clusterSpec env =
            newAfterCredentials (newSession spec env.envRegion).1 clusterSpec env
              .cached false) ∧
        (∀ e, env.fileCacheProvider = .error e →
          New spec clusterSpec env =
            newAfterCredentials (newSession spec env.envRegion).1 clusterSpec env
              .live true)) ∧
      (∀ e, env.cacheFilePath = .error e →
        New spec clusterSpec env =
          ⟨.error (.cachePathError e), (newSession spec env.envRegion).1, clusterSpec,
            .live, false⟩)) ∧
    (env.cacheOptIn = true → env.sessionConfigNil = true →
      New spec clusterSpec env =
        ⟨.error .nilSessionConfig, (newSession spec env.envRegion).1, clusterSpec,
          .live, false⟩) := by
  refine ⟨?_, ?_, ?_⟩
  · intro hopt
    refine ⟨?_, ?_, ?_⟩
    · simp [New, hopt, (newAfterCredentials_fields _ clusterSpec env .live false).2.1]
    · simp [New, hopt, (newAfterCredentials_fields _ clusterSpec env .live false).2.2.1]
    · intro b p f
      simp [New, hopt, newAfterCredentials]
  · intro hopt hnil
    refine ⟨?_, ?_⟩
    · intro path hpath
      constructor
      · intro hf
        simp [New, hopt, hnil, hpath, hf]
      · intro e hf
        simp [New, hopt, hnil, hpath, hf]
    · intro e hpath
      simp [New, hopt, hnil, hpath]
  · intro hopt hnil
    simp [New, hopt, hnil]

/-- Closed instance of `New_cache_behavior`: opt-in present, cache file
path available, but the file cache provider fails to construct — `New`
continues with live credentials and the warning flag set. -/
theorem New_cache_behavior_witness :
    (NewEnv.mk none true false (.ok "/tmp/creds.yaml") (.error "flock failed") (.ok ())
        (.ok (some ⟨some "arn:aws:iam::123:role/dev"⟩))).cacheOptIn = true ∧
    New (ProviderConfig.mk "us-west-2" "prof" 0 "" false) none
        (NewEnv.mk none true false (.ok "/tmp/creds.yaml") (.error "flock failed") (.ok ())
          (.ok (some ⟨some "arn:aws:iam::123:role/dev"⟩))) =
      newAfterCredentials
        (newSession (ProviderConfig.mk "us-west-2" "prof" 0 "" false) none).1 none
        (NewEnv.mk none true false (.ok "/tmp/creds.yaml") (.error "flock failed") (.ok ())
          (.ok (some ⟨some "arn:aws:iam::123:role/dev"⟩)))
        .live true :=
  ⟨rfl,
    (((New_cache_behavior (ProviderConfig.mk "us-west-2" "prof" 0 "" false) none
          (NewEnv.mk none true false (.ok "/tmp/creds.yaml") (.error "flock failed")
            (.ok ()) (.ok (some ⟨some "arn:aws:iam::123:role/dev"⟩)))).2.1
        rfl rfl).1 "/tmp/creds.yaml" rfl).2 "flock failed" rfl⟩

/-- Claim C10: whenever `New` with a non-nil cluster spec reaches the
point after session construction (no early return from the cache
segment or the V2 config), it overwrites the cluster spec's metadata
region with the provider's resolved region — whatever was there before
— and modifies no other field of the cluster spec. -/
theorem New_clusterSpec_frame (spec : ProviderConfig) (cs : ClusterConfig) (env : NewEnv)
    (hcache : env.cacheOptIn = true →
      env.sessionConfigNil = false ∧ ∃ p, env.cacheFilePath = .ok p)
    (hv2 : env.v2Config = .ok ()) :
    ∃ cs1, (New spec (some cs) env).clusterSpecFinal = some cs1 ∧
      cs1.metadata.region = (New spec (some cs) env).specFinal.region ∧
      cs1.metadata.name = cs.metadata.name ∧
      cs1.metadata.version = cs.metadata.version ∧
      cs1.availabilityZones = cs.availabilityZones ∧
      cs1.localZones = cs.localZones := by
  obtain ⟨src, warned, heq⟩ := New_reduces spec (some cs) env hcache
  have hf := newAfterCredentials_fields (newSession spec env.envRegion).1 (some cs) env
    src warned
  refine ⟨{ cs with metadata :=
      { cs.metadata with region := (newSession spec env.envRegion).1.region } },
    ?_, ?_, rfl, rfl, rfl, rfl⟩
  · rw [heq, hf.2.2.2 hv2]
    rfl
  · rw [heq, hf.1]

/-- Closed instance of `New_clusterSpec_frame`: a cluster spec with a
stale region and non-trivial other fields, under a run with no caching
and a successful V2 config. -/
theorem New_clusterSpec_frame_witness :
    ∃ cs1, (New (ProviderConfig.mk "us-west-2" "prof" 0 "" false)
        (some (ClusterConfig.mk (ClusterMeta.mk "c" "eu-west-1" "1.24")
          ["us-west-2a", "us-west-2b"] ["us-west-2-lax-1a"]))
        (NewEnv.mk none false false (.ok "") (.ok ()) (.ok ())
          (.ok (some ⟨some "arn:aws:iam::123:role/dev"⟩)))).clusterSpecFinal = some cs1 ∧
      cs1.metadata.region =
        ((New (ProviderConfig.mk "us-west-2" "prof" 0 "" false)
          (some (ClusterConfig.mk (ClusterMeta.mk "c" "eu-west-1" "1.24")
            ["us-west-2a", "us-west-2b"] ["us-west-2-lax-1a"]))
          (NewEnv.mk none false false (.ok "") (.ok ()) (.ok ())
            (.ok (some ⟨some "arn:aws:iam::123:role/dev"⟩)))).specFinal).region ∧
      cs1.metadata.name = (ClusterMeta.mk "c" "eu-west-1" "1.24").name ∧
      cs1.metadata.version = (ClusterMeta.mk "c" "eu-west-1" "1.24").version ∧
      cs1.availabilityZones = ["us-west-2a", "us-west-2b"] ∧
      cs1.localZones = ["us-west-2-lax-1a"] :=
  New_clusterSpec_frame (ProviderConfig.mk "us-west-2" "prof" 0 "" false)
    (ClusterConfig.mk (ClusterMeta.mk "c" "eu-west-1" "1.24")
      ["us-west-2a", "us-west-2b"] ["us-west-2-lax-1a"])
    (NewEnv.mk none false false (.ok "") (.ok ()) (.ok ())
      (.ok (some ⟨some "arn:aws:iam::123:role/dev"⟩)))
    (fun h => absurd h (by decide)) rfl

end Eksctl
